import Mathlib

/-!
Verification of the MemoryLoom repository's specification against its code.

The embedding below translates, per source file:
* `src/memoryloom/sqlManager.py` — the `SQLiteManager` table schemas and its
  generic `insert` / `update` / `delete` operations, over an explicit
  database state (`Db`).  SQLite stores values dynamically, so a cell is a
  `SqlValue` (text, integer or NULL) regardless of the column's declared type.
* `src/memoryloom/agent.py` — `BaseAgent.extract_json` (with a model of
  Python's `json.loads` and of the fenced-code-block regex scan),
  `BaseAgent.call_llm`, `BaseAgent.validate_response`, `BaseAgent.init_prompt`
  and the `SummaryAgent` prompt-id constants.
* `src/memoryloom/retrieval.py` — `rerank_api`, with the environment and the
  HTTP client as explicit parameters.
* `src/api.py` — the `MemoryResponse` pydantic model's construction-time
  validation and the `smart_retrieve` handler body.

External collaborators (sqlite3, `json`, `re`, pydantic, Langfuse, requests)
are modelled by explicit functions or abstract parameters, as noted at each
definition.
-/

namespace MemoryLoom

/-! ### SQLite value model

`sqlite3` stores NULL, INTEGER, REAL, TEXT and BLOB; the repository only ever
stores text and integers, so `SqlValue` covers text, integers and NULL. -/

inductive SqlValue where
  | text (s : String)
  | int (n : Int)
  | null
deriving DecidableEq, Repr

/-- A column default: either a fixed value from the DDL, or
`CURRENT_TIMESTAMP` (filled in from the wall clock at statement time). -/
inductive SqlDefault where
  | fixed (v : SqlValue)
  | currentTimestamp
deriving DecidableEq, Repr

/-- One column of a `CREATE TABLE` statement, as `initialize_tables` writes
them: its name, whether it is `NOT NULL`, whether it is `UNIQUE`, whether it
is the `INTEGER PRIMARY KEY AUTOINCREMENT` column, and its default. -/
structure SqlColumn where
  name : String
  notNull : Bool
  uniq : Bool
  pkAuto : Bool
  dflt : Option SqlDefault
deriving DecidableEq, Repr

/-- A stored row: the column name / value pairs, in schema order. -/
abbrev Row : Type := List (String × SqlValue)

/-- First value bound to key `k` in an association list (Python dict lookup,
and `SELECT` of one column of a row). -/
def assoc (xs : List (String × α)) (k : String) : Option α :=
  (xs.find? (fun p => p.1 == k)).map (fun p => p.2)

def rowGet (r : Row) (k : String) : Option SqlValue := assoc r k

/-! ### The seven table schemas of `SQLiteManager.initialize_tables` -/

def usersCols : List SqlColumn :=
  [⟨"id", false, false, true, none⟩,
   ⟨"user_id", true, true, false, none⟩,
   ⟨"status", true, false, false, some (.fixed (.text "未激活"))⟩,
   ⟨"created_at", false, false, false, some .currentTimestamp⟩]

def shortMemoryCols : List SqlColumn :=
  [⟨"id", false, false, true, none⟩,
   ⟨"user_id", true, false, false, none⟩,
   ⟨"content", true, false, false, none⟩,
   ⟨"timestamp", false, false, false, some .currentTimestamp⟩]

def dayMemoryCols : List SqlColumn :=
  [⟨"id", false, false, true, none⟩,
   ⟨"user_id", true, false, false, none⟩,
   ⟨"content", true, false, false, none⟩,
   ⟨"date", false, false, false, none⟩]

def weekMemoryCols : List SqlColumn :=
  [⟨"id", false, false, true, none⟩,
   ⟨"user_id", true, false, false, none⟩,
   ⟨"content", true, false, false, none⟩,
   ⟨"streamline", true, false, false, none⟩,
   ⟨"date", true, false, false, none⟩]

def monthMemoryCols : List SqlColumn :=
  [⟨"id", false, false, true, none⟩,
   ⟨"user_id", true, false, false, none⟩,
   ⟨"content", true, false, false, none⟩,
   ⟨"streamline", true, false, false, none⟩,
   ⟨"date", true, false, false, none⟩]

def yearMemoryCols : List SqlColumn :=
  [⟨"id", false, false, true, none⟩,
   ⟨"user_id", true, false, false, none⟩,
   ⟨"content", true, false, false, none⟩,
   ⟨"streamline", true, false, false, none⟩,
   ⟨"date", false, false, false, none⟩]

def longMemoryCols : List SqlColumn :=
  [⟨"id", false, false, true, none⟩,
   ⟨"user_id", true, false, false, none⟩,
   ⟨"content", true, false, false, none⟩,
   ⟨"timestamp", false, false, false, some .currentTimestamp⟩]

/-- The database state: one list of rows per table created by
`initialize_tables`. -/
structure Db where
  users : List Row
  short_memory : List Row
  day_memory : List Row
  week_memory : List Row
  month_memory : List Row
  year_memory : List Row
  long_memory : List Row
deriving DecidableEq

/-- A freshly connected database after `initialize_tables`: all seven tables
exist and are empty. -/
def emptyDb : Db := ⟨[], [], [], [], [], [], []⟩

def schemaOf (table : String) : Option (List SqlColumn) :=
  if table == "users" then some usersCols
  else if table == "short_memory" then some shortMemoryCols
  else if table == "day_memory" then some dayMemoryCols
  else if table == "week_memory" then some weekMemoryCols
  else if table == "month_memory" then some monthMemoryCols
  else if table == "year_memory" then some yearMemoryCols
  else if table == "long_memory" then some longMemoryCols
  else none

def getRows (db : Db) (table : String) : Option (List Row) :=
  if table == "users" then some db.users
  else if table == "short_memory" then some db.short_memory
  else if table == "day_memory" then some db.day_memory
  else if table == "week_memory" then some db.week_memory
  else if table == "month_memory" then some db.month_memory
  else if table == "year_memory" then some db.year_memory
  else if table == "long_memory" then some db.long_memory
  else none

def setRows (db : Db) (table : String) (rows : List Row) : Db :=
  if table == "users" then { db with users := rows }
  else if table == "short_memory" then { db with short_memory := rows }
  else if table == "day_memory" then { db with day_memory := rows }
  else if table == "week_memory" then { db with week_memory := rows }
  else if table == "month_memory" then { db with month_memory := rows }
  else if table == "year_memory" then { db with year_memory := rows }
  else if table == "long_memory" then { db with long_memory := rows }
  else db

/-- The running maximum over the integer ids of the rows seen so far. -/
def idStep (m : Int) (r : Row) : Int :=
  match rowGet r "id" with
  | some (.int i) => max m i
  | _ => m

/-- The rowid sqlite assigns to the next inserted row of a table whose `id`
is `INTEGER PRIMARY KEY AUTOINCREMENT`: one more than the largest id used. -/
def maxRowId (rows : List Row) : Int :=
  rows.foldl idStep 0

def nextRowId (rows : List Row) : Int := maxRowId rows + 1

/-- Build the stored row for `INSERT INTO table (data) VALUES (...)`: each
schema column takes the supplied value, or the fresh rowid for the
autoincrement primary key, or its default, or NULL; a `NOT NULL` column left
without a value (or given NULL) is a constraint violation. -/
def buildRow (cols : List SqlColumn) (data : List (String × SqlValue))
    (now : String) (newId : Int) : Except String Row :=
  match cols with
  | [] => .ok []
  | c :: rest =>
    let cell : Except String SqlValue :=
      match assoc data c.name with
      | some v =>
        if c.notNull ∧ v = .null then
          .error ("NOT NULL constraint failed: " ++ c.name)
        else .ok v
      | none =>
        if c.pkAuto then .ok (.int newId)
        else
          match c.dflt with
          | some (.fixed v) => .ok v
          | some .currentTimestamp => .ok (.text now)
          | none =>
            if c.notNull then
              .error ("NOT NULL constraint failed: " ++ c.name)
            else .ok .null
    match cell, buildRow rest data now newId with
    | .ok v, .ok r => .ok ((c.name, v) :: r)
    | .error e, _ => .error e
    | .ok _, .error e => .error e

/-- Whether inserting `newRow` violates a UNIQUE (or primary key) constraint
against the existing rows.  sqlite treats NULLs as distinct. -/
def uniqueViolation (cols : List SqlColumn) (rows : List Row) (newRow : Row) : Bool :=
  cols.any (fun c =>
    (c.uniq || c.pkAuto) &&
    match rowGet newRow c.name with
    | some v => (v != .null) && rows.any (fun r => rowGet r c.name == some v)
    | none => false)

/-- `SQLiteManager.insert`: builds `INSERT INTO table (columns) VALUES (...)`
and runs it through `execute`.  A sqlite error (unknown table or column,
NOT NULL or UNIQUE violation) is caught by `execute`, the transaction is
rolled back and a `RuntimeError` is raised — modelled as `.error`; on
success the method returns `cursor.lastrowid`.  `now` is the wall-clock
value sqlite substitutes for `CURRENT_TIMESTAMP` defaults. -/
def insert (db : Db) (now : String) (table : String)
    (data : List (String × SqlValue)) : Except String (Db × Int) :=
  match schemaOf table, getRows db table with
  | some cols, some rows =>
    if data.any (fun kv => !(cols.any (fun c => c.name == kv.1))) then
      .error "Database error: no such column"
    else
      let newId := nextRowId rows
      match buildRow cols data now newId with
      | .error e => .error ("Database error: " ++ e)
      | .ok newRow =>
        if uniqueViolation cols rows newRow then
          .error "Database error: UNIQUE constraint failed"
        else
          let lastId := match rowGet newRow "id" with
            | some (.int i) => i
            | _ => newId
          .ok (setRows db table (rows ++ [newRow]), lastId)
  | _, _ => .error "Database error: no such table"

/-- The connection state after `SQLiteManager.insert`: on a sqlite error,
`execute` rolls the transaction back before re-raising, so the database is
unchanged. -/
def insertState (db : Db) (now : String) (table : String)
    (data : List (String × SqlValue)) : Db :=
  match insert db now table data with
  | .ok p => p.1
  | .error _ => db

/-- SQL `=` against a bound parameter: `NULL` compares equal to nothing
(a condition on a NULL value matches no row). -/
def sqlEq (a b : SqlValue) : Bool :=
  match a, b with
  | .null, _ => false
  | _, .null => false
  | a, b => a == b

/-- The `WHERE` clause `update` / `delete` / `fetch_all` build: the
conjunction of `col = value` over the condition dict; an empty condition
degenerates to the literal clause `1=1`, which every row satisfies. -/
def rowMatches (cond : List (String × SqlValue)) (r : Row) : Bool :=
  cond.all (fun kv =>
    match rowGet r kv.1 with
    | some v => sqlEq v kv.2
    | none => false)

/-- The `SET` clause applied to one row: each listed column is overwritten
with its new value. -/
def setCols (data : List (String × SqlValue)) (r : Row) : Row :=
  r.map (fun kv =>
    match assoc data kv.1 with
    | some v => (kv.1, v)
    | none => kv)

/-- Whether two rows of `rows` carry the same non-NULL value in column `k`
(used to re-check a UNIQUE column that an UPDATE wrote to). -/
def hasDupOn (k : String) : List Row → Bool
  | [] => false
  | r :: rest =>
    (match rowGet r k with
     | some v => (v != .null) && rest.any (fun r2 => rowGet r2 k == some v)
     | none => false) || hasDupOn k rest

/-- `SQLiteManager.update`: builds
`UPDATE table SET ... WHERE ...` (the WHERE clause is `1=1` when the
condition dict is empty) and runs it through `execute`; returns
`cursor.rowcount`, the number of matched rows.  Constraints are re-checked
only for the columns the statement writes; a violation makes `execute` roll
back and raise. -/
def update (db : Db) (table : String)
    (data cond : List (String × SqlValue)) : Except String (Db × Nat) :=
  match schemaOf table, getRows db table with
  | some cols, some rows =>
    if (data ++ cond).any (fun kv => !(cols.any (fun c => c.name == kv.1))) then
      .error "Database error: no such column"
    else
      let matched := rows.filter (fun r => rowMatches cond r)
      let newRows := rows.map (fun r => if rowMatches cond r then setCols data r else r)
      let notNullBad := (!matched.isEmpty) &&
        data.any (fun kv => (kv.2 == SqlValue.null) &&
          cols.any (fun c => (c.name == kv.1) && c.notNull))
      let uniqBad := cols.any (fun c =>
        (c.uniq || c.pkAuto) && data.any (fun kv => kv.1 == c.name) &&
        hasDupOn c.name newRows)
      if notNullBad || uniqBad then
        .error "Database error: constraint failed"
      else .ok (setRows db table newRows, matched.length)
  | _, _ => .error "Database error: no such table"

/-- `SQLiteManager.delete`: builds `DELETE FROM table WHERE ...` (again
`1=1` on an empty condition dict) and returns the number of deleted rows. -/
def delete (db : Db) (table : String)
    (cond : List (String × SqlValue)) : Except String (Db × Nat) :=
  match schemaOf table, getRows db table with
  | some cols, some rows =>
    if cond.any (fun kv => !(cols.any (fun c => c.name == kv.1))) then
      .error "Database error: no such column"
    else
      let keep := rows.filter (fun r => !(rowMatches cond r))
      .ok (setRows db table keep, rows.length - keep.length)
  | _, _ => .error "Database error: no such table"

/-! ### Python `json.loads`, modelled

`BaseAgent.extract_json` calls `json.loads(text)` and catches
`json.JSONDecodeError` (the only error `loads` raises on a `str` argument).
The model below parses the JSON grammar over the characters of the text and
returns `none` where `loads` would raise.  Scope: numbers are modelled as
integers (every JSON payload the repository's schemas exchange is built from
objects, arrays, strings and integers); float literals, `NaN`/`Infinity`
and astral/surrogate escape pairing are outside the model. -/

inductive JValue where
  | null
  | bool (b : Bool)
  | int (n : Int)
  | str (s : List Char)
  | arr (items : List JValue)
  | obj (fields : List (List Char × JValue))

/-- The whitespace `json.loads` skips between tokens. -/
def jsonWs (c : Char) : Bool := c == ' ' || c == '\t' || c == '\n' || c == '\r'

def jskip : List Char → List Char
  | c :: cs => if jsonWs c then jskip cs else c :: cs
  | [] => []

def digit? (c : Char) : Bool := '0' ≤ c && c ≤ '9'

def grabDigits : List Char → List Char × List Char
  | c :: cs =>
    if digit? c then
      let p := grabDigits cs
      (c :: p.1, p.2)
    else ([], c :: cs)
  | [] => ([], [])

def digitsVal (ds : List Char) : Int :=
  (ds.foldl (fun a c => a * 10 + (c.toNat - '0'.toNat)) 0 : Nat)

def hexDigit (c : Char) : Option Nat :=
  let n := c.toNat
  if 48 ≤ n ∧ n ≤ 57 then some (n - 48)
  else if 97 ≤ n ∧ n ≤ 102 then some (n - 87)
  else if 65 ≤ n ∧ n ≤ 70 then some (n - 55)
  else none

def simpleEscape (c : Char) : Option Char :=
  if c = '"' then some '"'
  else if c = '\\' then some '\\'
  else if c = '/' then some '/'
  else if c = 'b' then some (Char.ofNat 8)
  else if c = 'f' then some (Char.ofNat 12)
  else if c = 'n' then some '\n'
  else if c = 'r' then some '\r'
  else if c = 't' then some '\t'
  else none

/-- The body of a JSON string after its opening quote; `json.loads` in its
default strict mode rejects raw control characters. -/
def jstring : List Char → Option (List Char × List Char)
  | [] => none
  | '\\' :: rest =>
    match rest with
    | 'u' :: a :: b :: c :: d :: cs =>
      match hexDigit a, hexDigit b, hexDigit c, hexDigit d with
      | some ha, some hb, some hc, some hd =>
        match jstring cs with
        | some (s, rem) =>
          some (Char.ofNat (((ha * 16 + hb) * 16 + hc) * 16 + hd) :: s, rem)
        | none => none
      | _, _, _, _ => none
    | e :: cs =>
      match simpleEscape e with
      | some ch =>
        match jstring cs with
        | some (s, rem) => some (ch :: s, rem)
        | none => none
      | none => none
    | [] => none
  | c :: cs =>
    if c = '"' then some ([], cs)
    else if c.toNat < 32 then none
    else
      match jstring cs with
      | some (s, rem) => some (c :: s, rem)
      | none => none

mutual

def jvalue (fuel : Nat) (cs : List Char) : Option (JValue × List Char) :=
  match fuel with
  | 0 => none
  | fuel + 1 =>
    match jskip cs with
    | 'n' :: 'u' :: 'l' :: 'l' :: rem => some (.null, rem)
    | 't' :: 'r' :: 'u' :: 'e' :: rem => some (.bool true, rem)
    | 'f' :: 'a' :: 'l' :: 's' :: 'e' :: rem => some (.bool false, rem)
    | '"' :: rem =>
      match jstring rem with
      | some (s, rem2) => some (.str s, rem2)
      | none => none
    | '[' :: rem =>
      match jskip rem with
      | ']' :: rem2 => some (.arr [], rem2)
      | rest =>
        match jitems fuel rest with
        | some (xs, rem2) => some (.arr xs, rem2)
        | none => none
    | '{' :: rem =>
      match jskip rem with
      | '}' :: rem2 => some (.obj [], rem2)
      | rest =>
        match jfields fuel rest with
        | some (fs, rem2) => some (.obj fs, rem2)
        | none => none
    | c :: rem =>
      if c = '-' then
        match grabDigits rem with
        | ([], _) => none
        | ('0' :: _ :: _, _) => none
        | (ds, rem2) => some (.int (-(digitsVal ds)), rem2)
      else if digit? c then
        match grabDigits (c :: rem) with
        | ('0' :: _ :: _, _) => none
        | (ds, rem2) => some (.int (digitsVal ds), rem2)
      else none
    | [] => none

def jitems (fuel : Nat) (cs : List Char) : Option (List JValue × List Char) :=
  match fuel with
  | 0 => none
  | fuel + 1 =>
    match jvalue fuel cs with
    | none => none
    | some (v, rem) =>
      match jskip rem with
      | ',' :: rem2 =>
        match jitems fuel rem2 with
        | some (vs, rem3) => some (v :: vs, rem3)
        | none => none
      | ']' :: rem2 => some ([v], rem2)
      | _ => none

def jfields (fuel : Nat) (cs : List Char) :
    Option (List (List Char × JValue) × List Char) :=
  match fuel with
  | 0 => none
  | fuel + 1 =>
    match jskip cs with
    | '"' :: rem =>
      match jstring rem with
      | none => none
      | some (k, rem1) =>
        match jskip rem1 with
        | ':' :: rem2 =>
          match jvalue fuel rem2 with
          | none => none
          | some (v, rem3) =>
            match jskip rem3 with
            | ',' :: rem4 =>
              match jfields fuel rem4 with
              | some (fs, rem5) => some ((k, v) :: fs, rem5)
              | none => none
            | '}' :: rem4 => some ([(k, v)], rem4)
            | _ => none
        | _ => none
    | _ => none

end

/-- `json.loads(text)`: parse a complete JSON document, requiring the whole
text to be consumed (up to trailing whitespace); `none` models a raised
`JSONDecodeError`.  The fuel `2 * length + 2` strictly bounds the recursion
depth, so it is never exhausted on the way to a successful parse. -/
def json_loads (text : String) : Option JValue :=
  let cs := text.toList
  match jvalue (2 * cs.length + 2) cs with
  | some (v, rem) => if jskip rem = [] then some v else none
  | none => none

/-- Python truthiness of the object `json.loads` returns, as tested by
`if json.loads(text):` — `None`, `False`, `0` and empty strings, lists and
dicts are falsy. -/
def py_truthy : JValue → Bool
  | .null => false
  | .bool b => b
  | .int n => n != 0
  | .str s => !s.isEmpty
  | .arr xs => !xs.isEmpty
  | .obj fs => !fs.isEmpty

/-! ### The fenced-code-block scan of `BaseAgent.extract_json`

`re.findall(r'```(?:json)?\s*\n?(.*?)\n?```', text, re.DOTALL)` — scanned
here by hand-compiling that pattern: at each opening ` ``` `, optionally
consume `json`, then the maximal whitespace run (the greedy `\s*`; the
optional `\n` after it can then never fire, since the character after a
maximal whitespace run is not a newline), then the shortest content such
that an optional newline followed by ` ``` ` closes the block (the lazy
`(.*?)` with `re.DOTALL`, preferring to hand the final newline to the
greedy trailing `\n?`).  `re.findall` resumes after each match and
otherwise advances one character. -/

/-- Three backticks at the head of the input, returning the rest. -/
def tick3? : List Char → Option (List Char)
  | '`' :: '`' :: '`' :: rem => some rem
  | _ => none

/-- The whitespace class `\s` of Python's `re`, on ASCII text (the claims'
inputs); the exotic Unicode whitespace code points are out of scope. -/
def pyWs (c : Char) : Bool :=
  c == ' ' || c == '\t' || c == '\n' || c == '\r' ||
  c == Char.ofNat 11 || c == Char.ofNat 12

/-- Optionally `json` right after the opening backticks (`(?:json)?`,
greedy). -/
def langSkip : List Char → List Char
  | 'j' :: 's' :: 'o' :: 'n' :: r => r
  | r => r

/-- The lazy search for the closing fence: the first position at which
either a newline followed by ` ``` ` (preferred: the trailing `\n?` is
greedy) or ` ``` ` itself closes the block.  Returns the captured group and
the input after the whole match. -/
def closeFence : List Char → Option (List Char × List Char)
  | [] => none
  | c :: rest =>
    match (if c = '\n' then tick3? rest else none) with
    | some rem => some ([], rem)
    | none =>
      match tick3? (c :: rest) with
      | some rem => some ([], rem)
      | none =>
        match closeFence rest with
        | some (g, rem) => some (c :: g, rem)
        | none => none

/-- One attempt to match the fence pattern anchored at the current
position. -/
def openFence (cs : List Char) : Option (List Char × List Char) :=
  match tick3? cs with
  | some rest => closeFence ((langSkip rest).dropWhile (fun c => pyWs c))
  | none => none

theorem tick3?_length {cs rem : List Char} (h : tick3? cs = some rem) :
    rem.length + 3 = cs.length := by
  unfold tick3? at h
  split at h
  · cases h; simp
  · cases h

theorem langSkip_length_le (cs : List Char) : (langSkip cs).length ≤ cs.length := by
  unfold langSkip
  split
  · simp only [List.length_cons]; omega
  · exact Nat.le_refl _

theorem dropWhile_length_le (p : Char → Bool) :
    ∀ cs : List Char, (cs.dropWhile p).length ≤ cs.length := by
  intro cs
  induction cs with
  | nil => simp
  | cons c rest ih =>
    rw [List.dropWhile_cons]
    split
    · simp only [List.length_cons]; omega
    · exact Nat.le_refl _

theorem closeFence_length_lt :
    ∀ (cs g rem : List Char), closeFence cs = some (g, rem) → rem.length < cs.length := by
  intro cs
  induction cs with
  | nil => intro g rem h; cases h
  | cons c rest ih =>
    intro g rem h
    unfold closeFence at h
    split at h
    · next rem0 heq =>
      cases h
      split at heq
      · have := tick3?_length heq
        simp only [List.length_cons]
        omega
      · cases heq
    · split at h
      · next rem0 heq =>
        cases h
        have := tick3?_length heq
        omega
      · split at h
        · next g0 rem0 heq =>
          cases h
          have := ih g0 rem heq
          simp only [List.length_cons]
          omega
        · cases h

theorem openFence_length_lt {cs g rem : List Char}
    (h : openFence cs = some (g, rem)) : rem.length < cs.length := by
  unfold openFence at h
  split at h
  · next rest heq =>
    have h1 := closeFence_length_lt _ _ _ h
    have h2 : ((langSkip rest).dropWhile (fun c => pyWs c)).length ≤ (langSkip rest).length :=
      dropWhile_length_le _ _
    have h3 := langSkip_length_le rest
    have h4 := tick3?_length heq
    omega
  · cases h

/-- `re.findall` over the whole text, on fuel: collect each match's
captured group, resume after the match, otherwise slide one character
forward. -/
def scanFencesF : Nat → List Char → List (List Char)
  | 0, _ => []
  | f + 1, cs =>
    match openFence cs with
    | some (g, rem) => g :: scanFencesF f rem
    | none =>
      match cs with
      | [] => []
      | _ :: rest => scanFencesF f rest

/-- `re.findall` over the whole text.  Fuel `cs.length` is always enough:
every step strictly shortens the input (`openFence_length_lt` for a match,
one character otherwise), so the remaining input's length never exceeds the
remaining fuel and fuel can only run out on the empty input, where the scan
is finished anyway. -/
def scanFences (cs : List Char) : List (List Char) :=
  scanFencesF cs.length cs

/-- `BaseAgent.extract_json`: first try `json.loads` on the whole text —
if it parses *and the parsed object is truthy*, the whole text is the one
candidate; on a `JSONDecodeError` (or a falsy parse) fall through to the
fenced-code-block scan, in order of appearance. -/
def extract_json (text : String) : List String :=
  match json_loads text with
  | some v => if py_truthy v then [text] else (scanFences text.toList).map String.mk
  | none => (scanFences text.toList).map String.mk

/-! ### `BaseAgent.validate_response` and `BaseAgent.call_llm` -/

/-- `BaseAgent.validate_response`: extract candidates, hand them to pydantic
(`self.response.model_validate_json(response)` — note the source passes the
whole candidate *list*, not one candidate), and catch every exception as
`None`.  `mvj` is the pydantic step, abstract and total: `none` is a caught
`ValidationError`.  (With pydantic's actual `model_validate_json`, which
requires `str | bytes`, a list argument always raises, so `mvj` is `none`
on every list — the theorems hypothesise only what each claim needs.) -/
def validate_response {R : Type} (mvj : List String → Option R)
    (response : String) : Option R :=
  mvj (extract_json response)

/-- `BaseAgent.call_llm`'s retry loop, unrolled on the remaining tries:
`while tries < max_tries and output is None`.  `chat n` is the backend's
response to the `n`-th generation call (the prompt is the same every
round; the backend is non-deterministic), and the second component counts
the generation calls made. -/
def call_llm_loop {R : Type} (chat : Nat → String) (validate : String → Option R) :
    Nat → Nat → Option R × Nat
  | 0, calls => (none, calls)
  | remaining + 1, calls =>
    match validate (chat calls) with
    | some out => (some out, calls + 1)
    | none => call_llm_loop chat validate remaining (calls + 1)

/-- `BaseAgent.call_llm(prompt, max_tries=3)`: run the retry loop from zero
tries and return `(output, number of generation calls)`; the loop body
raises nothing (`validate_response` catches every exception), so the
function is total and returns `None` — not an exception — when every try
fails. -/
def call_llm {R : Type} (chat : Nat → String) (validate : String → Option R)
    (max_tries : Nat := 3) : Option R × Nat :=
  call_llm_loop chat validate max_tries 0

/-! ### The Langfuse prompt registry and `BaseAgent.init_prompt`

The registry is an external capability; modelled as an association list
from prompt name to stored prompt.  `get_prompt` raises on a missing name —
modelled as `none`. -/

def get_prompt (reg : List (String × α)) (pid : String) : Option α :=
  assoc reg pid

def create_prompt (reg : List (String × α)) (name : String) (p : α) :
    List (String × α) :=
  (name, p) :: reg

/-- `BaseAgent.init_prompt`: try resolving `self.prompt_id`; if that raises,
register the class default under `self.__prompt_id__` (which `cls_prompt` /
`prompt_settings` set).  Returns the registry afterwards. -/
def init_prompt (reg : List (String × α)) (prompt_id dunder_prompt_id : String)
    (p : α) : List (String × α) :=
  match get_prompt reg prompt_id with
  | some _ => reg
  | none => create_prompt reg dunder_prompt_id p

/-- `SummaryAgent.get_agent_name`, which `BaseAgent.__init__` copies into
`self.prompt_id`. -/
def summary_agent_name : String := "summary"

/-- The `__prompt_id__` that `SummaryAgent.cls_prompt` sets — note the
triple `m`. -/
def summary_cls_prompt_id : String := "summmary"

/-- `BaseAgent.prompt_settings`: each setting keeps the `cls_prompt` value
when the constructor argument is `None`. -/
def prompt_settings_id (cls_id : String) (override : Option String) : String :=
  override.getD cls_id

/-- The registry after `SummaryAgent(...)` runs `BaseAgent.__init__` with
the default `prompt_id=None`: `self.prompt_id = "summary"`, `cls_prompt`
sets `__prompt_id__ = "summmary"`, `prompt_settings(None, ...)` keeps it,
then `init_prompt` runs. -/
def summary_agent_init (reg : List (String × α)) (defaultPrompt : α) :
    List (String × α) :=
  init_prompt reg summary_agent_name
    (prompt_settings_id summary_cls_prompt_id none) defaultPrompt

/-! ### `rerank_api` (src/memoryloom/retrieval.py) -/

/-- The request body `rerank_api` posts. -/
structure RerankPayload where
  query : String
  texts : List String
deriving DecidableEq

/-- `rerank_api(query, docs, use_proxy)`.  `env` is `os.environ.get`;
`post url payload proxies` is `requests.post(...).json()` — its `.error`
covers both a raised `requests` exception (oracle unreachable) and a
non-JSON body, both of which propagate out of `rerank_api` uncaught; a
missing `RERANK_API` (or, with `use_proxy`, a missing `PROXY_URL`) raises
before any request is made. -/
def rerank_api {ρ : Type} (env : String → Option String)
    (post : String → RerankPayload → Option String → Except String ρ)
    (query : String) (docs : List String) (use_proxy : Bool) :
    Except String ρ :=
  let payload : RerankPayload := ⟨query, docs⟩
  match env "RERANK_API" with
  | none => .error "RERANK_API is not set"
  | some url =>
    if use_proxy then
      match env "PROXY_URL" with
      | none => .error "PROXY_URL is not set"
      | some proxy => post url payload (some proxy)
    else post url payload none

/-! ### The HTTP surface (src/api.py) -/

/-- `QueryRequest`: the `/retrieve` request body. -/
structure QueryRequest where
  query : String
  topk : Int
  username : String

/-- `MemoryResponse`: three ranked lists, all declared required. -/
structure MemoryResponse where
  records : List String
  longterm : List String
  summary : List String
deriving DecidableEq

/-- pydantic construction `MemoryResponse(**kwargs)`: validation checks each
declared field is provided (extra keywords are ignored under the default
config); a missing required field raises `ValidationError`. -/
def memoryResponseInit (kwargs : List (String × List String)) :
    Except String MemoryResponse :=
  match assoc kwargs "records", assoc kwargs "longterm", assoc kwargs "summary" with
  | some r, some l, some s => .ok ⟨r, l, s⟩
  | _, _, _ => .error "ValidationError: Field required"

/-- The `/retrieve` handler `smart_retrieve`: its body is
`return MemoryResponse(results=[])`. -/
def smart_retrieve (_req : QueryRequest) : Except String MemoryResponse :=
  memoryResponseInit [("results", [])]

/-! ### The consolidation commit (spec §4.2)

Modelled from the spec: `commit_consolidation`, the `consumed` flag and the
(user, tier, period) summary keying are not implemented anywhere under
src/ — `SQLiteManager` exposes only the generic per-statement-commit
primitives above, and no table of `initialize_tables` carries a consumed
column.  The definitions below follow §3/§4.2: the commit is one
transactional unit that persists the summary and marks the listed inputs
consumed, fails with a conflict when the (user, tier, period) bucket
already has a summary, and on any failure leaves no partial state. -/

inductive MemTier where
  | day
  | week
  | month
  | year
deriving DecidableEq, Repr

/-- A lower-tier input row as the commit sees it: its id and consumed
flag. -/
structure InputRow where
  rid : Nat
  user : String
  consumed : Bool
deriving DecidableEq, Repr

/-- One TierSummary row, keyed by (user, tier, period). -/
structure TierSummaryRow where
  sid : Nat
  user : String
  tier : MemTier
  period : String
  summary : String
deriving DecidableEq, Repr

structure ConsolidationStore where
  inputs : List InputRow
  summaries : List TierSummaryRow
deriving DecidableEq

/-- Modelled from the spec: the store's summary fetch for one (user, tier,
period) bucket. -/
def findSummary (st : ConsolidationStore) (user : String) (tier : MemTier)
    (period : String) : Option TierSummaryRow :=
  st.summaries.find? (fun s => s.user == user && s.tier == tier && s.period == period)

/-- Modelled from the spec: `commit_consolidation(user, tier, period,
summary, consumed_input_ids) -> summary_id` — transactional: persist the
summary row and mark every listed input consumed as one unit; fail with a
conflict if the bucket already has a summary, or with an integrity error if
a listed input id does not exist, leaving no partial state either way. -/
def commit_consolidation (st : ConsolidationStore) (user : String)
    (tier : MemTier) (period : String) (summary : String)
    (consumed_input_ids : List Nat) :
    Except String (ConsolidationStore × Nat) :=
  if (findSummary st user tier period).isSome then
    .error "conflict: summary already exists for this (user, tier, period)"
  else if consumed_input_ids.any (fun i => !(st.inputs.any (fun r => r.rid == i))) then
    .error "integrity: unknown input id"
  else
    let sid := st.summaries.foldl (fun m s => max m s.sid) 0 + 1
    .ok ({ inputs := st.inputs.map (fun r =>
             if consumed_input_ids.contains r.rid then { r with consumed := true } else r),
           summaries := st.summaries ++ [⟨sid, user, tier, period, summary⟩] }, sid)

/-- The store a caller observes after a `commit_consolidation` call: on any
failure the transaction rolled back, so the pre-call store. -/
def commitState (st : ConsolidationStore) (user : String) (tier : MemTier)
    (period : String) (summary : String) (ids : List Nat) : ConsolidationStore :=
  match commit_consolidation st user tier period summary ids with
  | .ok p => p.1
  | .error _ => st

/-! ### Helper lemmas: the autoincrement rowid is fresh -/

theorem le_idStep (m : Int) (r : Row) : m ≤ idStep m r := by
  unfold idStep
  split
  · exact le_max_left _ _
  · exact le_refl _

theorem le_foldl_idStep (rows : List Row) : ∀ a : Int, a ≤ rows.foldl idStep a := by
  induction rows with
  | nil => intro a; exact le_refl _
  | cons r rest ih =>
    intro a
    calc a ≤ idStep a r := le_idStep a r
    _ ≤ rest.foldl idStep (idStep a r) := ih _

theorem id_le_foldl_idStep (rows : List Row) (r : Row) (i : Int)
    (hmem : r ∈ rows) (hid : rowGet r "id" = some (.int i)) :
    ∀ a : Int, i ≤ rows.foldl idStep a := by
  induction rows with
  | nil => cases hmem
  | cons r0 rest ih =>
    intro a
    rcases List.mem_cons.mp hmem with h | h
    · subst h
      have h1 : i ≤ idStep a r := by
        unfold idStep
        rw [hid]
        exact le_max_right _ _
      calc i ≤ idStep a r := h1
      _ ≤ rest.foldl idStep (idStep a r) := le_foldl_idStep rest _
    · exact ih h _

/-- No existing row already carries the rowid sqlite hands to the next
insert (the UNIQUE re-check on the autoincrement primary key never fires
for a generated id). -/
theorem fresh_id_not_present (rows : List Row) :
    rows.any (fun r => rowGet r "id" == some (.int (nextRowId rows))) = false := by
  rw [List.any_eq_false]
  intro r hmem
  simp only [beq_iff_eq]
  intro hid
  have := id_le_foldl_idStep rows r (nextRowId rows) hmem hid 0
  unfold nextRowId maxRowId at this
  omega

/-! ### Helper lemmas: the degenerate `1=1` WHERE clause -/

theorem rowMatches_nil (r : Row) : rowMatches [] r = true := rfl

theorem filter_not_rowMatches_nil (rows : List Row) :
    (rows.filter fun r => !(rowMatches [] r)) = [] := by
  induction rows with
  | nil => rfl
  | cons r rest ih => simp [List.filter_cons, rowMatches_nil, ih]

theorem filter_rowMatches_nil (rows : List Row) :
    (rows.filter fun r => rowMatches [] r) = rows := by
  induction rows with
  | nil => rfl
  | cons r rest ih => simp [List.filter_cons, rowMatches_nil, ih]

/-! ## The claims -/

/-- The database after inserting a first day summary for the bucket
(user "u1", date "2024-01-01") into a fresh store. -/
def c2_db1 : Db :=
  insertState emptyDb "t0" "day_memory"
    [("user_id", .text "u1"), ("content", .text "summary A"), ("date", .text "2024-01-01")]

/-- The database after inserting a second day summary for the *same*
(user, date) bucket. -/
def c2_db2 : Db :=
  insertState c2_db1 "t1" "day_memory"
    [("user_id", .text "u1"), ("content", .text "summary B"), ("date", .text "2024-01-01")]

/-- C2 (counterexample): committing a summary for a (user, tier, period)
bucket that already has one does not fail with a conflict — the schema of
`initialize_tables` puts no UNIQUE constraint on the summary tables, so the
second insert for (u1, day, 2024-01-01) succeeds and the table ends up with
two rows for that bucket. -/
theorem day_memory_duplicate_bucket_cex :
    (insert emptyDb "t0" "day_memory"
        [("user_id", .text "u1"), ("content", .text "summary A"),
         ("date", .text "2024-01-01")]).toOption.isSome = true
  ∧ (insert c2_db1 "t1" "day_memory"
        [("user_id", .text "u1"), ("content", .text "summary B"),
         ("date", .text "2024-01-01")]).toOption.isSome = true
  ∧ (c2_db2.day_memory.filter (fun r =>
        rowGet r "user_id" == some (.text "u1") &&
        rowGet r "date" == some (.text "2024-01-01"))).length = 2 :=
  ⟨rfl, rfl, rfl⟩

/-- C2 (amended): only `users.user_id` carries a UNIQUE constraint; the
day/week/month/year summary tables have none on (user_id, date), so
inserting a summary row always succeeds — also when the bucket already has
one — and simply appends a row. -/
theorem day_memory_insert_always_appends (db : Db) (now u c d : String) :
    ∃ db2 rid,
      insert db now "day_memory"
        [("user_id", .text u), ("content", .text c), ("date", .text d)] = .ok (db2, rid)
      ∧ db2.day_memory.length = db.day_memory.length + 1 := by
  have hfresh := fresh_id_not_present db.day_memory
  simp only [rowGet, assoc] at hfresh
  refine ⟨{db with day_memory := db.day_memory ++
      [([("id", .int (nextRowId db.day_memory)), ("user_id", .text u),
         ("content", .text c), ("date", .text d)] : Row)]}, nextRowId db.day_memory, ?_, by simp⟩
  simp only [insert, schemaOf, getRows, setRows]
  simp [uniqueViolation, buildRow, assoc, dayMemoryCols, rowGet, List.find?, hfresh]

/-- C5 (counterexample): on a fresh database the users table is empty, yet
appending a raw record for the unknown user "ghost" succeeds and returns
rowid 1 — `short_memory.user_id` carries no foreign key and `insert` never
consults the users table. -/
theorem append_record_unknown_user_cex :
    emptyDb.users = []
  ∧ insert emptyDb "t0" "short_memory"
      [("user_id", .text "ghost"), ("content", .text "hello")] =
      .ok ({emptyDb with short_memory :=
        [[("id", .int 1), ("user_id", .text "ghost"),
          ("content", .text "hello"), ("timestamp", .text "t0")]]}, 1) :=
  ⟨rfl, rfl⟩

/-- C5 (amended): appending a raw record succeeds for every user id,
whether or not a users row exists — the schema has no foreign key from
`short_memory.user_id` to `users`, so no unknown-user error is possible. -/
theorem append_record_succeeds_for_any_user (db : Db) (now u c : String) :
    ∃ db2 rid,
      insert db now "short_memory"
        [("user_id", .text u), ("content", .text c)] = .ok (db2, rid)
      ∧ db2.short_memory.length = db.short_memory.length + 1 := by
  have hfresh := fresh_id_not_present db.short_memory
  simp only [rowGet, assoc] at hfresh
  refine ⟨{db with short_memory := db.short_memory ++
      [([("id", .int (nextRowId db.short_memory)), ("user_id", .text u),
         ("content", .text c), ("timestamp", .text now)] : Row)]},
    nextRowId db.short_memory, ?_, by simp⟩
  simp only [insert, schemaOf, getRows, setRows]
  simp [uniqueViolation, buildRow, assoc, shortMemoryCols, rowGet, List.find?, hfresh]

/-- C9: an empty condition dict degenerates the WHERE clause to `1=1`, so
`delete` removes every row of the named table (rowcount = the table's
size), and `update` rewrites every row (shown on `short_memory`: every row
gets the SET applied and the rowcount is the full table size). -/
theorem update_delete_empty_condition_hits_all_rows (db : Db) (s : String) :
    delete db "users" [] = .ok ({db with users := []}, db.users.length)
  ∧ delete db "short_memory" [] = .ok ({db with short_memory := []}, db.short_memory.length)
  ∧ delete db "day_memory" [] = .ok ({db with day_memory := []}, db.day_memory.length)
  ∧ delete db "week_memory" [] = .ok ({db with week_memory := []}, db.week_memory.length)
  ∧ delete db "month_memory" [] = .ok ({db with month_memory := []}, db.month_memory.length)
  ∧ delete db "year_memory" [] = .ok ({db with year_memory := []}, db.year_memory.length)
  ∧ delete db "long_memory" [] = .ok ({db with long_memory := []}, db.long_memory.length)
  ∧ update db "short_memory" [("content", .text s)] [] =
      .ok ({db with short_memory := db.short_memory.map (setCols [("content", .text s)])},
           db.short_memory.length) := by
  refine ⟨?_, ?_, ?_, ?_, ?_, ?_, ?_, ?_⟩
  all_goals
    simp only [delete, update, schemaOf, getRows, setRows]
  · simp [filter_not_rowMatches_nil]
  · simp [filter_not_rowMatches_nil]
  · simp [filter_not_rowMatches_nil]
  · simp [filter_not_rowMatches_nil]
  · simp [filter_not_rowMatches_nil]
  · simp [filter_not_rowMatches_nil]
  · simp [filter_not_rowMatches_nil]
  · simp [filter_rowMatches_nil, filter_not_rowMatches_nil, rowMatches_nil,
      shortMemoryCols, hasDupOn]

/-- C10: inserting a second users row with an already-present `user_id`
violates the UNIQUE constraint: `execute` rolls the statement back and
raises `RuntimeError`, and the users table is unchanged. -/
theorem users_duplicate_user_id_insert_fails (db : Db) (now u st : String)
    (h : db.users.any (fun r => rowGet r "user_id" == some (.text u)) = true) :
    insert db now "users" [("user_id", .text u), ("status", .text st)] =
      .error "Database error: UNIQUE constraint failed"
  ∧ insertState db now "users" [("user_id", .text u), ("status", .text st)] = db := by
  have hfresh := fresh_id_not_present db.users
  simp only [rowGet, assoc] at hfresh h
  have h1 : insert db now "users" [("user_id", .text u), ("status", .text st)] =
      .error "Database error: UNIQUE constraint failed" := by
    simp only [insert, schemaOf, getRows, setRows]
    simp [uniqueViolation, buildRow, assoc, usersCols, rowGet, List.find?, hfresh, h]
  exact ⟨h1, by simp [insertState, h1]⟩

/-- A database holding exactly one users row, for user id "alice". -/
def c10_db : Db := insertState emptyDb "t0" "users" [("user_id", .text "alice")]

theorem users_duplicate_user_id_insert_fails_witness :
    insert c10_db "t1" "users" [("user_id", .text "alice"), ("status", .text "active")] =
      .error "Database error: UNIQUE constraint failed"
  ∧ insertState c10_db "t1" "users" [("user_id", .text "alice"), ("status", .text "active")] =
      c10_db :=
  users_duplicate_user_id_insert_fails c10_db "t1" "alice" "active" (by rfl)

/-- C1: `commit_consolidation` is one atomic unit.  On success every listed
input row is marked consumed *and* the new summary is fetchable for its
(user, tier, period) bucket, and the observed store is exactly the
committed one; on any failure (conflict or integrity error) the observed
store is unchanged — no partial state. -/
theorem commit_consolidation_atomic (st : ConsolidationStore) (user : String)
    (tier : MemTier) (period summary : String) (ids : List Nat) :
    (∀ st2 sid, commit_consolidation st user tier period summary ids = .ok (st2, sid) →
        (∀ r ∈ st2.inputs, r.rid ∈ ids → r.consumed = true)
      ∧ findSummary st2 user tier period = some ⟨sid, user, tier, period, summary⟩
      ∧ commitState st user tier period summary ids = st2)
  ∧ (∀ e, commit_consolidation st user tier period summary ids = .error e →
        commitState st user tier period summary ids = st) := by
  constructor
  · intro st2 sid h
    have horig := h
    unfold commit_consolidation at h
    split at h
    · cases h
    · split at h
      · cases h
      · next hconf _ =>
        simp only [Except.ok.injEq, Prod.mk.injEq] at h
        obtain ⟨hst2, hsid⟩ := h
        subst hst2
        subst hsid
        refine ⟨?_, ?_, ?_⟩
        · intro r hr hrid
          simp only [List.mem_map] at hr
          obtain ⟨a, _, hfa⟩ := hr
          by_cases hc : ids.contains a.rid = true
          · rw [if_pos hc] at hfa
            subst hfa
            rfl
          · rw [if_neg hc] at hfa
            subst hfa
            exact absurd (List.elem_iff.mpr hrid) hc
        · have hnone : findSummary st user tier period = none := by
            rcases hfs : findSummary st user tier period with _ | v
            · rfl
            · rw [hfs] at hconf; simp at hconf
          unfold findSummary at hnone ⊢
          simp only [List.find?_append, hnone, Option.none_or]
          simp [List.find?]
        · unfold commitState
          rw [horig]
  · intro e h
    unfold commitState
    rw [h]

/-- A concrete store with two unconsumed inputs and no summaries, for the
C1 witness. -/
def c1_store : ConsolidationStore :=
  ⟨[⟨1, "u1", false⟩, ⟨2, "u1", false⟩], []⟩

theorem commit_consolidation_atomic_witness :
    findSummary
      ⟨[⟨1, "u1", true⟩, ⟨2, "u1", true⟩],
       [⟨1, "u1", .day, "2024-01-01", "the day summary"⟩]⟩
      "u1" .day "2024-01-01" =
      some ⟨1, "u1", .day, "2024-01-01", "the day summary"⟩ :=
  ((commit_consolidation_atomic c1_store "u1" .day "2024-01-01"
      "the day summary" [1, 2]).1 _ 1 rfl).2.1

/-- The raw-JSON example of the claim: the text `{"a":1}`. -/
def c3_raw : String := "\x7b\"a\":1\x7d"

/-- The fenced example of the claim: commentary, then `{"a":1}` inside a
```json fenced block. -/
def c3_fenced : String := "Here is the requested JSON:\n```json\n\x7b\"a\":1\x7d\n```"

/-- C3 (counterexample): the text `{}` parses as JSON (the empty object),
yet extraction does not return it: `if json.loads(text):` is false on a
falsy parse result, so the code falls through to the fenced-block scan and
returns its (empty) match list instead of the parsed whole text. -/
theorem extract_json_whole_parse_cex :
    (json_loads "\x7b\x7d").isSome = true
  ∧ extract_json "\x7b\x7d" = []
  ∧ extract_json "\x7b\x7d" ≠ ["\x7b\x7d"] :=
  ⟨rfl, rfl, by decide⟩

/-- C3 (amended): extraction returns the whole text as the sole candidate
exactly when it parses as JSON to a *truthy* value; when parsing raises
(and also when the parse is falsy) it scans fenced code blocks in order of
appearance.  In particular the raw `{"a":1}` is returned directly, and the
commentary-plus-fenced example yields the fenced `{"a":1}`, not the
commentary. -/
theorem extract_json_truthy_whole_else_fences :
    (∀ text v, json_loads text = some v → py_truthy v = true →
        extract_json text = [text])
  ∧ (∀ text, json_loads text = none →
        extract_json text = (scanFences text.toList).map String.mk)
  ∧ extract_json c3_raw = [c3_raw]
  ∧ extract_json c3_fenced = ["\x7b\"a\":1\x7d"] := by
  refine ⟨?_, ?_, rfl, rfl⟩
  · intro text v h ht
    simp [extract_json, h, ht]
  · intro text h
    simp [extract_json, h]

/-- C4: a Structured Agent invocation whose backend responses never
validate — `mvj` (the pydantic step of `validate_response`) returns `None`
on every extracted candidate list — runs its loop exactly `max_tries = 3`
times: three generation calls, then the result `None` is returned to the
caller (the loop raises nothing; `validate_response` catches every
exception). -/
theorem call_llm_exhausts_three_tries (R : Type) (chat : Nat → String)
    (mvj : List String → Option R)
    (h : ∀ n, mvj (extract_json (chat n)) = none) :
    call_llm chat (validate_response mvj) 3 = (none, 3) := by
  simp [call_llm, call_llm_loop, validate_response, h]

theorem call_llm_exhausts_three_tries_witness :
    call_llm (fun _ => "no json here") (validate_response (fun _ => (none : Option Nat))) 3 =
      (none, 3) :=
  call_llm_exhausts_three_tries Nat (fun _ => "no json here") (fun _ => none) (fun _ => rfl)

/-- C6: `rerank_api` fails the whole call with an explicit error whenever
the scoring oracle is unavailable (the `RERANK_API` url is not configured)
or unreachable (every post raises), and it never fabricates a ranking: an
`.ok` result can only be the oracle's own response. -/
theorem rerank_api_no_silent_fallback (ρ : Type) (env : String → Option String)
    (post : String → RerankPayload → Option String → Except String ρ)
    (query : String) (docs : List String) (use_proxy : Bool) :
    (env "RERANK_API" = none →
        rerank_api env post query docs use_proxy = .error "RERANK_API is not set")
  ∧ (∀ e, (∀ url pl pr, post url pl pr = .error e) →
        ∃ msg, rerank_api env post query docs use_proxy = .error msg)
  ∧ (∀ r, rerank_api env post query docs use_proxy = .ok r →
        ∃ url pr, env "RERANK_API" = some url ∧ post url ⟨query, docs⟩ pr = .ok r) := by
  refine ⟨?_, ?_, ?_⟩
  · intro h
    simp [rerank_api, h]
  · intro e hpost
    unfold rerank_api
    rcases henv : env "RERANK_API" with _ | url
    · exact ⟨"RERANK_API is not set", rfl⟩
    · rcases use_proxy with _ | _
      · simp [hpost]
      · rcases hproxy : env "PROXY_URL" with _ | proxy
        · exact ⟨"PROXY_URL is not set", by simp⟩
        · simp [hproxy, hpost]
  · intro r h
    unfold rerank_api at h
    rcases henv : env "RERANK_API" with _ | url
    · rw [henv] at h; cases h
    · rw [henv] at h
      rcases use_proxy with _ | _
      · simp only [Bool.false_eq_true, if_neg, ite_false] at h
        exact ⟨url, none, rfl, h⟩
      · simp only [ite_true] at h
        rcases hproxy : env "PROXY_URL" with _ | proxy
        · rw [hproxy] at h; cases h
        · rw [hproxy] at h
          exact ⟨url, some proxy, rfl, h⟩

/-- C7: no retrieval call ever succeeds, let alone returns three ranked,
budget-truncated lists — the handler body `MemoryResponse(results=[])`
omits all three required fields, so pydantic validation raises on every
request. -/
theorem smart_retrieve_always_raises :
    smart_retrieve ⟨"what does u1 like", 5, "u1"⟩ =
      .error "ValidationError: Field required"
  ∧ ∀ (req : QueryRequest) (r : MemoryResponse), smart_retrieve req ≠ .ok r := by
  refine ⟨rfl, ?_⟩
  intro req r h
  simp [smart_retrieve, memoryResponseInit, assoc, List.find?] at h

/-- C8: `SummaryAgent` initialization against a registry missing its
prompt checks for `self.prompt_id = "summary"` but registers the default
under `self.__prompt_id__ = "summmary"` (the `cls_prompt` typo), so after
initialization resolving the stage's prompt id still fails while the
misspelled id resolves. -/
theorem summary_agent_registers_misspelled_id :
    get_prompt (summary_agent_init ([] : List (String × Nat)) 0) summary_agent_name = none
  ∧ get_prompt (summary_agent_init ([] : List (String × Nat)) 0) summary_cls_prompt_id =
      some 0 :=
  ⟨rfl, rfl⟩

end MemoryLoom
